import Mathlib

/-!
Verification model of the `aws-bedrock-opensearch-langchain` ingestion and
query pipeline.  Python scripts under `src/` are embedded shallowly:

* a parsed PDF document (`fitz` document) is the list of its pages' raw texts;
* a page dictionary `{page_number, text, vector_field?}` is the structure
  `Page`, where the optional `vector_field` key is an `Option`;
* Python floats are modelled as rationals (IEEE doubles embed exactly into ℚ,
  and `json.dump`/`json.load` round-trip them exactly via `repr`);
* external SDK calls (Bedrock embedding, OpenSearch requests, AWS lookups)
  are oracles passed in as function arguments: `none` / a `Bool` failure flag
  models the call raising an exception.
-/

/-- A page record as produced by `extract_text_from_pdf` and enriched by
`create_embeddings` (`src/generate_embeddings.py`): the Python dict
`{"page_number": ..., "text": ..., "vector_field": ...}` where the
`vector_field` key may be absent (`none`). -/
structure Page where
  page_number : Nat
  text : String
  vector_field : Option (List ℚ)
deriving Repr, DecidableEq

/-- Python's `str.strip()`: remove leading and trailing whitespace characters.
Modelled on the character list so that it evaluates by `decide`. -/
def py_strip (s : String) : String :=
  String.mk (((s.data.dropWhile Char.isWhitespace).reverse.dropWhile Char.isWhitespace).reverse)

/-- Embeds `extract_text_from_pdf` of `src/generate_embeddings.py`: the opened
document is the list of its pages' raw texts (`page.get_text()` for
`page_num` in `range(len(doc))`); for each page, in order, a dict with
1-based `page_number` and the stripped text is appended. -/
def extract_text_from_pdf (doc : List String) : List Page :=
  go doc 0
where
  /-- The extraction loop from page index `page_num` on. -/
  go : List String → Nat → List Page
    | [], _ => []
    | t :: ts, page_num =>
        { page_number := page_num + 1, text := py_strip t, vector_field := none } :: go ts (page_num + 1)

/-- The body of one iteration of the `create_embeddings` loop
(`src/generate_embeddings.py` lines 84-93): on success the embedding is
attached as `vector_field`; on an exception the page is left untouched. -/
def embed_page (embed : String → Option (List ℚ)) (p : Page) : Page :=
  match embed p.text with
  | some v => { p with vector_field := some v }
  | none => p

/-- Embeds `create_embeddings` of `src/generate_embeddings.py`.  The Bedrock
`embed_query` call is the oracle `embed`; `none` models it raising.  Returns
the (mutated-in-place, here rebuilt) page list together with the page numbers
for which the `logger.error("Error creating embedding for page ...")` line
was emitted; the loop continues after a failure. -/
def create_embeddings (pages : List Page) (embed : String → Option (List ℚ)) :
    List Page × List Nat :=
  match pages with
  | [] => ([], [])
  | p :: ps =>
      let rest := create_embeddings ps embed
      match embed p.text with
      | some v => ({ p with vector_field := some v } :: rest.1, rest.2)
      | none => (p :: rest.1, p.page_number :: rest.2)

theorem create_embeddings_fst (pages : List Page) (embed : String → Option (List ℚ)) :
    (create_embeddings pages embed).1 = pages.map (embed_page embed) := by
  induction pages with
  | nil => rfl
  | cons p ps ih =>
      unfold create_embeddings embed_page
      cases h : embed p.text <;> simp [h, ih, embed_page]

theorem create_embeddings_snd (pages : List Page) (embed : String → Option (List ℚ)) :
    (create_embeddings pages embed).2 =
      (pages.filter (fun p => (embed p.text).isNone)).map Page.page_number := by
  induction pages with
  | nil => rfl
  | cons p ps ih =>
      unfold create_embeddings
      cases h : embed p.text <;> simp [h, ih, List.filter]

theorem extract_go_length (doc : List String) (k : Nat) :
    (extract_text_from_pdf.go doc k).length = doc.length := by
  induction doc generalizing k with
  | nil => rfl
  | cons t ts ih => simp [extract_text_from_pdf.go, ih]

theorem extract_go_get (doc : List String) (k i : Nat) (hi : i < doc.length) :
    (extract_text_from_pdf.go doc k).get ⟨i, by rw [extract_go_length]; exact hi⟩ =
      { page_number := k + i + 1, text := py_strip (doc.get ⟨i, hi⟩), vector_field := none } := by
  induction doc generalizing k i with
  | nil => exact absurd hi (by simp)
  | cons t ts ih =>
      cases i with
      | zero => simp [extract_text_from_pdf.go]
      | succ j =>
          have hj : j < ts.length := by simpa using hi
          have := ih (k + 1) j hj
          simp only [extract_text_from_pdf.go, List.get_cons_succ]
          rw [this]
          congr 1
          omega

/-- Claim C4: for every PDF that opens successfully with N pages, the text
extractor returns exactly N page records in document order: the i-th record
(0-based) has `page_number = i + 1` (so the page numbers read 1..N in order),
its `text` is the page's raw text with surrounding whitespace trimmed, and it
carries no `vector_field`. -/
theorem extract_text_from_pdf_pages (doc : List String) (i : Nat) (hi : i < doc.length) :
    (extract_text_from_pdf doc).length = doc.length ∧
      (extract_text_from_pdf doc).get ⟨i, by rw [extract_text_from_pdf, extract_go_length]; exact hi⟩ =
        { page_number := i + 1, text := py_strip (doc.get ⟨i, hi⟩), vector_field := none } := by
  refine ⟨by rw [extract_text_from_pdf, extract_go_length], ?_⟩
  have := extract_go_get doc 0 i hi
  simpa [extract_text_from_pdf] using this

/-- Witness for C4 on a concrete two-page document. -/
theorem extract_text_from_pdf_pages_witness :
    (0 : Nat) < (["  Hello world ", "React approach described here"] : List String).length ∧
      (extract_text_from_pdf ["  Hello world ", "React approach described here"]).length = 2 ∧
      (extract_text_from_pdf ["  Hello world ", "React approach described here"]).get
          ⟨0, by decide⟩ =
        { page_number := 1, text := "Hello world", vector_field := none } := by
  refine ⟨by decide, ?_⟩
  have h := extract_text_from_pdf_pages ["  Hello world ", "React approach described here"] 0
    (by decide)
  exact ⟨h.1, by rw [h.2]; decide⟩

/-- Claim C10 (frame property of `create_embeddings`): the returned list has the
same length as the input and is the input list mapped position-wise by the
single-page step; that step never changes `page_number` or `text`, and when
the embedding call fails it returns the page completely unchanged — the only
modification ever made is setting `vector_field` to the fresh embedding on
success. -/
theorem create_embeddings_frame (pages : List Page) (embed : String → Option (List ℚ)) :
    ((create_embeddings pages embed).1.length = pages.length ∧
      (create_embeddings pages embed).1 = pages.map (embed_page embed)) ∧
      ∀ p : Page,
        (embed_page embed p).page_number = p.page_number ∧
        (embed_page embed p).text = p.text ∧
        (∀ v, embed p.text = some v → embed_page embed p = { p with vector_field := some v }) ∧
        (embed p.text = none → embed_page embed p = p) := by
  refine ⟨⟨by rw [create_embeddings_fst]; simp, create_embeddings_fst pages embed⟩, ?_⟩
  intro p
  unfold embed_page
  cases h : embed p.text with
  | none => simp
  | some v => simp

/-- Witness for C10: a two-page list where the first embedding succeeds and
the second fails. -/
theorem create_embeddings_frame_witness :
    (create_embeddings
        [⟨1, "a", none⟩, ⟨2, "b", none⟩]
        (fun t => if t = "a" then some [1, 2] else none)).1 =
      [⟨1, "a", some [1, 2]⟩, ⟨2, "b", none⟩] := by
  have h := create_embeddings_frame [⟨1, "a", none⟩, ⟨2, "b", none⟩]
    (fun t => if t = "a" then some [1, 2] else none)
  rw [h.1.2]
  rfl

/-- JSON values, as produced by Python's `json` module: `json.dump` writes
them, `json.load` reads them back.  Python ints and floats are distinct JSON
number shapes (`jint` / `jnum`); floats are modelled as rationals. -/
inductive JVal where
  | jnull
  | jbool (b : Bool)
  | jint (n : Int)
  | jnum (q : ℚ)
  | jstr (s : String)
  | jarr (elems : List JVal)
  | jobj (fields : List (String × JVal))
deriving Repr

/-- The document body built inside the `ingest_data` loop
(`src/ingest_docs_with_embeddings.py` lines 60-63):
`{"text": page.get('text'), "vector_field": page.get('vector_field')}`.
`dict.get` returns `None` for a missing key, which serializes as JSON null. -/
def document_of (p : Page) : List (String × JVal) :=
  [("text", JVal.jstr p.text),
   ("vector_field",
     match p.vector_field with
     | some v => JVal.jarr (v.map JVal.jnum)
     | none => JVal.jnull)]

/-- Embeds `ingest_data` of `src/ingest_docs_with_embeddings.py`.  The
OpenSearch index is the list of document bodies it holds, in insertion order
(`client.index` is called without a document id, so every request appends a
fresh document).  `indexOk` is the request oracle: `false` models
`client.index` raising, in which case the error is logged with the page
number and the loop continues.  Returns the final index state and the page
numbers whose indexing failed. -/
def ingest_data (indexOk : List (String × JVal) → Bool)
    (st : List (List (String × JVal))) (data : List Page) :
    List (List (String × JVal)) × List Nat :=
  match data with
  | [] => (st, [])
  | p :: ps =>
      let doc := document_of p
      if indexOk doc then ingest_data indexOk (st ++ [doc]) ps
      else
        let rest := ingest_data indexOk st ps
        (rest.1, p.page_number :: rest.2)

theorem ingest_data_all_success (st : List (List (String × JVal))) (data : List Page) :
    ingest_data (fun _ => true) st data = (st ++ data.map document_of, []) := by
  induction data generalizing st with
  | nil => simp [ingest_data]
  | cons p ps ih => simp [ingest_data, ih]

/-- Claim C5: the document body written to the index for a page record holds
exactly the two keys `text` and `vector_field`, in that order, with the
values taken from the page record; `page_number` is not persisted in the
body. -/
theorem document_of_exact_keys (p : Page) :
    (document_of p).map Prod.fst = ["text", "vector_field"] ∧
    (document_of p).lookup "text" = some (JVal.jstr p.text) ∧
    (document_of p).lookup "vector_field" =
      some (match p.vector_field with
            | some v => JVal.jarr (v.map JVal.jnum)
            | none => JVal.jnull) ∧
    (document_of p).lookup "page_number" = none := by
  refine ⟨rfl, ?_, ?_, ?_⟩ <;> simp [document_of, List.lookup]

/-- Claim C2: ingestion is not idempotent.  One run of `ingest_data` over
`data` against an empty index issues one index-document request per page
(appending exactly `data.map document_of`, with no document id derived from
page identity), and a second run against the resulting index appends the
same documents again, so the index document count doubles to
`2 * data.length`. -/
theorem ingest_data_not_idempotent (data : List Page) :
    (ingest_data (fun _ => true) [] data).1 = data.map document_of ∧
    (ingest_data (fun _ => true) [] data).1.length = data.length ∧
    (ingest_data (fun _ => true) (ingest_data (fun _ => true) [] data).1 data).1 =
      data.map document_of ++ data.map document_of ∧
    (ingest_data (fun _ => true) (ingest_data (fun _ => true) [] data).1 data).1.length =
      2 * data.length := by
  have h1 := ingest_data_all_success [] data
  have h2 := ingest_data_all_success (data.map document_of) data
  refine ⟨by simp [h1], by simp [h1], ?_, ?_⟩
  · rw [h1]
    simpa using congrArg Prod.fst h2
  · rw [h1]
    simp only [List.nil_append] at h2 ⊢
    rw [congrArg Prod.fst h2]
    simp [two_mul]

theorem extract_text_from_pdf_no_vector (doc : List String) :
    ∀ p ∈ extract_text_from_pdf doc, p.vector_field = none := by
  suffices h : ∀ (d : List String) (k : Nat), ∀ p ∈ extract_text_from_pdf.go d k, p.vector_field = none by
    exact h doc 0
  intro d
  induction d with
  | nil => intro k p hp; simp [extract_text_from_pdf.go] at hp
  | cons t ts ih =>
      intro k p hp
      simp only [extract_text_from_pdf.go, List.mem_cons] at hp
      rcases hp with h | h
      · rw [h]
      · exact ih (k + 1) p h

/-- Counterexample to claim C1: for the one-page document `["hello"]` whose
embedding call fails, the pipeline (`create_embeddings` followed by
`ingest_data`) logs page 1 as failed and leaves it without `vector_field`,
yet `ingest_data` still writes a document for that page — the index ends up
holding `{"text": "hello", "vector_field": null}`, not zero documents as the
claim states. -/
theorem failed_page_still_ingested_cex :
    (create_embeddings (extract_text_from_pdf ["hello"]) (fun _ => none)).2 = [1] ∧
    (create_embeddings (extract_text_from_pdf ["hello"]) (fun _ => none)).1 =
      [{ page_number := 1, text := "hello", vector_field := none }] ∧
    (ingest_data (fun _ => true) []
        (create_embeddings (extract_text_from_pdf ["hello"]) (fun _ => none)).1).1 =
      [[("text", JVal.jstr "hello"), ("vector_field", JVal.jnull)]] ∧
    (ingest_data (fun _ => true) []
        (create_embeddings (extract_text_from_pdf ["hello"]) (fun _ => none)).1).1.length ≠ 0 := by
  refine ⟨by decide, by decide, rfl, by decide⟩

/-- Claim C1 (amended): when the embedding call fails for some pages, the
pipeline logs exactly the failed pages' page numbers and continues with the
remaining pages, and a failed page carries no `vector_field`; however,
`ingest_data` does NOT exclude it — every page, failed ones included, gets a
document written to the index (the failed page's body carrying a null
`vector_field`). -/
theorem failed_pages_logged_not_excluded (doc : List String)
    (embed : String → Option (List ℚ)) (p : Page)
    (hp : p ∈ (create_embeddings (extract_text_from_pdf doc) embed).1)
    (hfail : embed p.text = none) :
    (create_embeddings (extract_text_from_pdf doc) embed).2 =
      ((extract_text_from_pdf doc).filter (fun q => (embed q.text).isNone)).map Page.page_number ∧
    (create_embeddings (extract_text_from_pdf doc) embed).1.length = doc.length ∧
    p.vector_field = none ∧
    (ingest_data (fun _ => true) []
        (create_embeddings (extract_text_from_pdf doc) embed).1).1 =
      (create_embeddings (extract_text_from_pdf doc) embed).1.map document_of ∧
    document_of p ∈ (ingest_data (fun _ => true) []
        (create_embeddings (extract_text_from_pdf doc) embed).1).1 := by
  refine ⟨create_embeddings_snd _ _, ?_, ?_, ?_, ?_⟩
  · rw [create_embeddings_fst]
    simp [extract_text_from_pdf, extract_go_length]
  · rw [create_embeddings_fst] at hp
    obtain ⟨q, hq, hqp⟩ := List.mem_map.mp hp
    have hqt : (embed_page embed q).text = q.text := by
      unfold embed_page; cases h : embed q.text <;> simp
    cases h : embed q.text with
    | some v =>
        exfalso
        rw [hqp] at hqt
        rw [hqt] at hfail
        rw [h] at hfail
        exact Option.noConfusion hfail
    | none =>
        have : embed_page embed q = q := by unfold embed_page; rw [h]
        rw [← hqp, this]
        exact extract_text_from_pdf_no_vector doc q hq
  · rw [ingest_data_all_success]
    simp
  · rw [ingest_data_all_success]
    simp only [List.nil_append]
    exact List.mem_map_of_mem document_of hp

/-- Witness for the amended C1: the one-page document `["hello"]` with a
failing embedding oracle. -/
theorem failed_pages_logged_not_excluded_witness :
    ({ page_number := 1, text := "hello", vector_field := none } : Page) ∈
        (create_embeddings (extract_text_from_pdf ["hello"]) (fun _ => none)).1 ∧
      (fun _ => (none : Option (List ℚ))) "hello" = none ∧
      ({ page_number := 1, text := "hello", vector_field := none } : Page).vector_field = none ∧
      document_of { page_number := 1, text := "hello", vector_field := none } ∈
        (ingest_data (fun _ => true) []
          (create_embeddings (extract_text_from_pdf ["hello"]) (fun _ => none)).1).1 := by
  have h := failed_pages_logged_not_excluded ["hello"] (fun _ => none)
    { page_number := 1, text := "hello", vector_field := none } (by decide) rfl
  exact ⟨by decide, rfl, h.2.2.1, h.2.2.2.2⟩

/-- Serialization of one page dict by `json.dump(pages_with_embeddings, f,
ensure_ascii=False, indent=2)` in `src/generate_embeddings.py`: an object
with `page_number` (Python int), `text` (string) and — when the key exists —
`vector_field` (array of floats). -/
def page_to_json (p : Page) : JVal :=
  JVal.jobj
    ([("page_number", JVal.jint (p.page_number : Int)), ("text", JVal.jstr p.text)] ++
      match p.vector_field with
      | some v => [("vector_field", JVal.jarr (v.map JVal.jnum))]
      | none => [])

/-- The intermediate file `../data/text_with_embeddings.json` is the JSON
array of the page objects, in order. -/
def pages_to_json (ps : List Page) : JVal :=
  JVal.jarr (ps.map page_to_json)

/-- Reading a JSON number back as a Python int (what `json.load` yields for a
serialized `page_number`). -/
def nat_of_json : JVal → Option Nat
  | JVal.jint n => if 0 ≤ n then some n.toNat else none
  | _ => none

def str_of_json : JVal → Option String
  | JVal.jstr s => some s
  | _ => none

def rat_of_json : JVal → Option ℚ
  | JVal.jnum q => some q
  | _ => none

def vec_of_json : JVal → Option (List ℚ)
  | JVal.jarr xs => xs.mapM rat_of_json
  | _ => none

/-- Deserialization of one page dict, as `json.load` followed by the readers
used downstream (`page.get('page_number')`, `page.get('text')`,
`page.get('vector_field')` in `src/ingest_docs_with_embeddings.py`). -/
def page_of_json : JVal → Option Page
  | JVal.jobj fields => do
      let pn ← fields.lookup "page_number"
      let n ← nat_of_json pn
      let tj ← fields.lookup "text"
      let t ← str_of_json tj
      match fields.lookup "vector_field" with
      | none => pure { page_number := n, text := t, vector_field := none }
      | some vj => do
          let v ← vec_of_json vj
          pure { page_number := n, text := t, vector_field := some v }
  | _ => none

def pages_of_json : JVal → Option (List Page)
  | JVal.jarr xs => xs.mapM page_of_json
  | _ => none

/-- The keys of a JSON object, in order. -/
def jobj_keys : JVal → Option (List String)
  | JVal.jobj fields => some (fields.map Prod.fst)
  | _ => none

theorem vec_of_json_round (v : List ℚ) :
    vec_of_json (JVal.jarr (v.map JVal.jnum)) = some v := by
  unfold vec_of_json
  induction v with
  | nil => rfl
  | cons q qs ih =>
      simp only [List.map_cons, List.mapM_cons]
      simp only [List.map] at ih
      rw [ih]
      rfl

theorem page_of_json_round (p : Page) :
    page_of_json (page_to_json p) = some p := by
  obtain ⟨n, t, vf⟩ := p
  cases vf with
  | none =>
      simp [page_to_json, page_of_json, nat_of_json, str_of_json, List.lookup]
  | some v =>
      simp [page_to_json, page_of_json, nat_of_json, str_of_json, List.lookup,
        vec_of_json_round]

/-- One hexadecimal digit, lowercase (as Python's `json` emits). -/
def hex_digit (n : Nat) : Char :=
  if n < 10 then Char.ofNat (48 + n) else Char.ofNat (87 + n)

/-- Four-digit hexadecimal rendering used in `\u....` escapes. -/
def hex4 (n : Nat) : String :=
  String.mk [hex_digit (n / 4096 % 16), hex_digit (n / 256 % 16),
    hex_digit (n / 16 % 16), hex_digit (n % 16)]

/-- How `json.dump(..., ensure_ascii=False)` renders one character inside a
JSON string: `"` , `\` and the control characters below 0x20 are escaped;
every other character — in particular every non-ASCII one — is written
literally (the file is opened with `encoding="utf-8"`). -/
def escape_char (c : Char) : String :=
  if c = '"' then "\\\""
  else if c = '\\' then "\\\\"
  else if c = '\n' then "\\n"
  else if c = '\r' then "\\r"
  else if c = '\t' then "\\t"
  else if c = Char.ofNat 8 then "\\b"
  else if c = Char.ofNat 12 then "\\f"
  else if c.toNat < 32 then "\\u" ++ hex4 c.toNat
  else String.mk [c]

/-- Rendering of a JSON string literal with `ensure_ascii=False`. -/
def encode_json_string (s : String) : String :=
  "\"" ++ String.join (s.data.map escape_char) ++ "\""

/-- Claim C7: serializing any sequence of page records to the intermediate
JSON file and deserializing yields field-for-field equal records; the file is
a JSON array of objects whose keys are exactly `page_number`, `text` and
`vector_field` (for records carrying a vector), and non-ASCII characters of
the text are left unescaped in the UTF-8 output (`ensure_ascii=False`). -/
theorem pages_json_round_trip (ps : List Page) (p : Page) (v : List ℚ)
    (hv : p.vector_field = some v) (c : Char) (hc : 128 ≤ c.toNat) :
    pages_of_json (pages_to_json ps) = some ps ∧
    jobj_keys (page_to_json p) = some ["page_number", "text", "vector_field"] ∧
    escape_char c = String.mk [c] ∧
    encode_json_string (String.mk [c]) = "\"" ++ String.mk [c] ++ "\"" := by
  refine ⟨?_, ?_, ?_, ?_⟩
  · unfold pages_of_json pages_to_json
    induction ps with
    | nil => rfl
    | cons q qs ih =>
        simp only [List.map_cons, List.mapM_cons, page_of_json_round]
        simp only [List.map] at ih
        rw [ih]
        rfl
  · simp [page_to_json, jobj_keys, hv]
  · unfold escape_char
    have h8 : ¬ c.toNat < 32 := by omega
    have hq : c ≠ '"' := by intro h; rw [h] at hc; exact absurd hc (by decide)
    have hb : c ≠ '\\' := by intro h; rw [h] at hc; exact absurd hc (by decide)
    have hn : c ≠ '\n' := by intro h; rw [h] at hc; exact absurd hc (by decide)
    have hr : c ≠ '\r' := by intro h; rw [h] at hc; exact absurd hc (by decide)
    have ht : c ≠ '\t' := by intro h; rw [h] at hc; exact absurd hc (by decide)
    have hbs : c ≠ Char.ofNat 8 := by intro h; rw [h] at hc; exact absurd hc (by decide)
    have hf : c ≠ Char.ofNat 12 := by intro h; rw [h] at hc; exact absurd hc (by decide)
    simp [hq, hb, hn, hr, ht, hbs, hf, h8]
  · unfold encode_json_string
    have h8 : ¬ c.toNat < 32 := by omega
    have hq : c ≠ '"' := by intro h; rw [h] at hc; exact absurd hc (by decide)
    have hb : c ≠ '\\' := by intro h; rw [h] at hc; exact absurd hc (by decide)
    have hn : c ≠ '\n' := by intro h; rw [h] at hc; exact absurd hc (by decide)
    have hr : c ≠ '\r' := by intro h; rw [h] at hc; exact absurd hc (by decide)
    have ht : c ≠ '\t' := by intro h; rw [h] at hc; exact absurd hc (by decide)
    have hbs : c ≠ Char.ofNat 8 := by intro h; rw [h] at hc; exact absurd hc (by decide)
    have hf : c ≠ Char.ofNat 12 := by intro h; rw [h] at hc; exact absurd hc (by decide)
    simp [escape_char, hq, hb, hn, hr, ht, hbs, hf, h8, String.join]

/-- Witness for C7 on a concrete one-page list containing a non-ASCII
character. -/
theorem pages_json_round_trip_witness :
    pages_of_json (pages_to_json [{ page_number := 1, text := "héllo", vector_field := some [1/2] }]) =
      some [{ page_number := 1, text := "héllo", vector_field := some [1/2] }] ∧
    jobj_keys (page_to_json { page_number := 1, text := "héllo", vector_field := some [1/2] }) =
      some ["page_number", "text", "vector_field"] ∧
    escape_char 'é' = String.mk ['é'] := by
  have h := pages_json_round_trip
    [{ page_number := 1, text := "héllo", vector_field := some [1/2] }]
    { page_number := 1, text := "héllo", vector_field := some [1/2] }
    [1/2] rfl 'é' (by decide)
  exact ⟨h.1, h.2.1, h.2.2.1⟩

/-- Python's `index.startswith('.')`: whether the first character is a dot. -/
def starts_with_dot (s : String) : Bool :=
  match s.data with
  | [] => false
  | c :: _ => c == '.'

/-- Embeds `delete_opensearch_index` of `src/delete_index.py`.  The
`indices.delete` call is the oracle `deleteResp`: `some ack` is a response
with `response['acknowledged'] = ack`, `none` models the call raising, in
which case the error is logged and `False` is returned (no exception escapes). -/
def delete_opensearch_index (deleteResp : String → Option Bool) (index_name : String) : Bool :=
  match deleteResp index_name with
  | some ack => ack
  | none => false

/-- Embeds `delete_all_indices` of `src/delete_index.py`: every index whose
name starts with `'.'` is skipped as a system index; every other index is
attempted in order, and a failed deletion only produces a warning — the loop
never aborts.  Returns the attempted indices paired with their success flag,
in order. -/
def delete_all_indices (deleteResp : String → Option Bool) (indices : List String) :
    List (String × Bool) :=
  match indices with
  | [] => []
  | i :: is =>
      if starts_with_dot i then delete_all_indices deleteResp is
      else (i, delete_opensearch_index deleteResp i) :: delete_all_indices deleteResp is

theorem delete_all_indices_attempted (deleteResp : String → Option Bool)
    (indices : List String) :
    (delete_all_indices deleteResp indices).map Prod.fst =
      indices.filter (fun n => !(starts_with_dot n)) := by
  induction indices with
  | nil => rfl
  | cons n ns ih =>
      unfold delete_all_indices
      by_cases h : starts_with_dot n <;> simp [h, ih]

theorem delete_all_indices_outcomes (deleteResp : String → Option Bool)
    (indices : List String) :
    (delete_all_indices deleteResp indices).map Prod.snd =
      (indices.filter (fun n => !(starts_with_dot n))).map
        (delete_opensearch_index deleteResp) := by
  induction indices with
  | nil => rfl
  | cons n ns ih =>
      unfold delete_all_indices
      by_cases h : starts_with_dot n <;> simp [h, ih]

/-- Claim C6: `delete_all_indices` skips exactly the dot-prefixed indices and
attempts deletion of every other index in order, whatever the per-index
outcomes are (no aborting); each attempt's failure is recorded via the
returned flag, and `delete_opensearch_index` returns `false` instead of
raising when the delete call fails.  In particular, on
`[".kibana", "rag", "rag-test"]` it skips `.kibana` and attempts the other
two. -/
theorem delete_all_indices_spec (deleteResp : String → Option Bool)
    (indices : List String) (i : String) (hfail : deleteResp i = none) :
    (delete_all_indices deleteResp indices).map Prod.fst =
      indices.filter (fun n => !(starts_with_dot n)) ∧
    (delete_all_indices deleteResp indices).map Prod.snd =
      (indices.filter (fun n => !(starts_with_dot n))).map (delete_opensearch_index deleteResp) ∧
    delete_opensearch_index deleteResp i = false ∧
    (delete_all_indices deleteResp [".kibana", "rag", "rag-test"]).map Prod.fst =
      ["rag", "rag-test"] := by
  refine ⟨delete_all_indices_attempted deleteResp indices,
    delete_all_indices_outcomes deleteResp indices, ?_, ?_⟩
  · unfold delete_opensearch_index
    rw [hfail]
  · rw [delete_all_indices_attempted]
    decide

/-- Witness for C6: the three-index cluster from the spec, where deleting
`rag-test` fails. -/
theorem delete_all_indices_spec_witness :
    (fun n => if n = "rag-test" then none else some true) "rag-test" = (none : Option Bool) ∧
    (delete_all_indices (fun n => if n = "rag-test" then none else some true)
        [".kibana", "rag", "rag-test"]).map Prod.fst = ["rag", "rag-test"] ∧
    (delete_all_indices (fun n => if n = "rag-test" then none else some true)
        [".kibana", "rag", "rag-test"]).map Prod.snd = [true, false] := by
  have h := delete_all_indices_spec (fun n => if n = "rag-test" then none else some true)
    [".kibana", "rag", "rag-test"] "rag-test" (by decide)
  exact ⟨by decide, h.2.2.2, by decide⟩

/-- The decrypted `SecretString` as `get_secret` sees it
(`src/retrieve_secret.py`): either a JSON object of key/value pairs (the
`json.loads` branch) or a raw string (the `JSONDecodeError` branch). -/
inductive SecretValue where
  | raw (s : String)
  | jsonDict (kvs : List (String × String))

/-- The masking expression of `get_secret`: an asterisk per character of the
value. -/
def mask_value (v : String) : String :=
  String.mk (List.replicate v.length '*')

/-- The diagnostic lines emitted by `get_secret` for the retrieved value
(`src/retrieve_secret.py` lines 93-102): in the JSON branch one line per
key/value pair with the value masked, in the raw branch one masked line. -/
def secret_log_lines : SecretValue → List String
  | SecretValue.jsonDict kvs =>
      "Secret contents (key-value pairs):" ::
        kvs.map (fun kv => "  " ++ kv.1 ++ ": " ++ mask_value kv.2)
  | SecretValue.raw s =>
      ["Secret is not in JSON format. Raw secret (masked):", mask_value s]

/-- Two secret values have the same shape when they agree on everything but
the secret characters: equal lengths for raw secrets, equal key lists and
pointwise equal value lengths for JSON secrets. -/
def same_shape : SecretValue → SecretValue → Prop
  | SecretValue.raw s1, SecretValue.raw s2 => s1.length = s2.length
  | SecretValue.jsonDict k1, SecretValue.jsonDict k2 =>
      k1.map Prod.fst = k2.map Prod.fst ∧
        k1.map (fun kv => kv.2.length) = k2.map (fun kv => kv.2.length)
  | _, _ => False

theorem mask_value_of_length (v w : String) (h : v.length = w.length) :
    mask_value v = mask_value w := by
  unfold mask_value
  rw [h]

theorem secret_lines_map_eq (k1 k2 : List (String × String))
    (hk : k1.map Prod.fst = k2.map Prod.fst)
    (hl : k1.map (fun kv => kv.2.length) = k2.map (fun kv => kv.2.length)) :
    k1.map (fun kv => "  " ++ kv.1 ++ ": " ++ mask_value kv.2) =
      k2.map (fun kv => "  " ++ kv.1 ++ ": " ++ mask_value kv.2) := by
  induction k1 generalizing k2 with
  | nil =>
      cases k2 with
      | nil => rfl
      | cons b bs => simp at hk
  | cons a as ih =>
      cases k2 with
      | nil => simp at hk
      | cons b bs =>
          simp only [List.map_cons, List.cons.injEq] at hk hl ⊢
          exact ⟨by rw [hk.1, mask_value_of_length a.2 b.2 hl.1], ih bs hk.2 hl.2⟩

/-- Claim C8: `get_secret` masks every secret value as asterisks of the
value's length, so its diagnostic output is a function of the secret's shape
alone: the mask has the same length as the value and consists only of `'*'`,
and any two secrets of the same shape (equal lengths; equal key names in the
JSON case) produce identical log lines. -/
theorem get_secret_masks (s1 s2 : SecretValue) (h : same_shape s1 s2) (v : String) :
    secret_log_lines s1 = secret_log_lines s2 ∧
    (mask_value v).length = v.length ∧
    (∀ c ∈ (mask_value v).data, c = '*') := by
  refine ⟨?_, ?_, ?_⟩
  · cases s1 with
    | raw r1 =>
        cases s2 with
        | raw r2 =>
            have hlen : r1.length = r2.length := h
            simp only [secret_log_lines]
            rw [mask_value_of_length r1 r2 hlen]
        | jsonDict k2 => exact absurd h (by simp [same_shape])
    | jsonDict k1 =>
        cases s2 with
        | raw r2 => exact absurd h (by simp [same_shape])
        | jsonDict k2 =>
            obtain ⟨hk, hl⟩ := h
            simp only [secret_log_lines]
            rw [secret_lines_map_eq k1 k2 hk hl]
  · unfold mask_value
    simp
  · intro c hc
    unfold mask_value at hc
    exact List.eq_of_mem_replicate hc

/-- Witness for C8: two JSON secrets with the same key and same value length
but different values log identically. -/
theorem get_secret_masks_witness :
    same_shape (SecretValue.jsonDict [("password", "hunter02")])
      (SecretValue.jsonDict [("password", "abcdefgh")]) ∧
    secret_log_lines (SecretValue.jsonDict [("password", "hunter02")]) =
      secret_log_lines (SecretValue.jsonDict [("password", "abcdefgh")]) ∧
    secret_log_lines (SecretValue.jsonDict [("password", "hunter02")]) =
      ["Secret contents (key-value pairs):", "  password: ********"] := by
  have h := get_secret_masks (SecretValue.jsonDict [("password", "hunter02")])
    (SecretValue.jsonDict [("password", "abcdefgh")])
    (by constructor <;> decide) "hunter02"
  exact ⟨by constructor <;> decide, h.1, by decide⟩

/-- The outcome of the `describe_elasticsearch_domain` call as seen by
`get_opensearch_endpoint` in `src/retrieve_endpoint.py`: a response whose
`DomainStatus` may or may not carry an `Endpoint`, a `ClientError`, or any
other exception. -/
inductive DescribeDomainResult where
  | ok (endpoint : Option String)
  | clientError (msg : String)
  | otherError (msg : String)

/-- Embeds `get_opensearch_endpoint` of `src/retrieve_endpoint.py`: the
endpoint is returned when present (`response['DomainStatus'].get('Endpoint',
None)`); a missing endpoint returns `None`; both exception handlers print
the error and fall off the end of the function, which in Python returns
`None`. -/
def get_opensearch_endpoint : DescribeDomainResult → Option String
  | DescribeDomainResult.ok (some e) => some e
  | DescribeDomainResult.ok none => none
  | DescribeDomainResult.clientError _ => none
  | DescribeDomainResult.otherError _ => none

/-- Claim C9: the endpoint resolver returns the domain's DNS endpoint when
provisioned, and returns `None` — it never raises, being a total function —
both when no endpoint is present and when the lookup fails with a client or
other transport error. -/
theorem get_opensearch_endpoint_cases (e m : String) :
    get_opensearch_endpoint (DescribeDomainResult.ok (some e)) = some e ∧
    get_opensearch_endpoint (DescribeDomainResult.ok none) = none ∧
    get_opensearch_endpoint (DescribeDomainResult.clientError m) = none ∧
    get_opensearch_endpoint (DescribeDomainResult.otherError m) = none :=
  ⟨rfl, rfl, rfl, rfl⟩

/-- A network request issued by the query pipeline of `src/ask_question.py`:
embedding the question, the k-NN search against the index, and the LLM
invocation. -/
inductive NetCall where
  | embedText (t : String)
  | knnSearch (v : List ℚ)
  | llmInvoke (prompt : String)
deriving Repr, DecidableEq

/-- The `ChatPromptTemplate` of `src/ask_question.py` with `{context}` and
`{input}` substituted. -/
def prompt_template (context input : String) : String :=
  "You are an assistant for question-answering tasks. \n" ++
    "    Use the following pieces of retrieved context to answer the question. \n" ++
    "    If you don't know the answer, just say that you don't know. \n" ++
    "    Use five sentences maximum.\n    \n    " ++ context ++
    "\n\n    Question: " ++ input ++ "\n    Answer:"

/-- Embeds the retrieval chain run by `main` of `src/ask_question.py`: the
question is embedded, the resulting vector is handed to the vector store's
retriever as produced — the script contains no dimension check of any kind —
the retrieved passages are stuffed into the prompt template, and the LLM is
invoked.  Returns the answer together with the ordered network calls made. -/
def ask_question_main (embed : String → List ℚ) (search : List ℚ → List String)
    (llm : String → String) (question : String) : String × List NetCall :=
  let qvec := embed question
  let docs := search qvec
  let context := String.intercalate "\n\n" docs
  let prompt := prompt_template context question
  (llm prompt, [NetCall.embedText question, NetCall.knnSearch qvec, NetCall.llmInvoke prompt])

/-- Field access in a JSON object. -/
def jobj_get : JVal → String → Option JVal
  | JVal.jobj fields, k => fields.lookup k
  | _, _ => none

/-- The `index_body` schema defined in `create_index`
(`src/create_index.py` lines 68-89). -/
def index_body : JVal :=
  JVal.jobj
    [("settings", JVal.jobj
        [("index", JVal.jobj
            [("number_of_shards", JVal.jint 3),
             ("number_of_replicas", JVal.jint 2),
             ("knn", JVal.jbool true),
             ("knn.space_type", JVal.jstr "cosinesimil")])]),
     ("mappings", JVal.jobj
        [("properties", JVal.jobj
            [("text", JVal.jobj
                [("type", JVal.jstr "text"),
                 ("analyzer", JVal.jstr "standard")]),
             ("vector_field", JVal.jobj
                [("type", JVal.jstr "knn_vector"),
                 ("dimension", JVal.jint 1536)])])])]

/-- The vector dimension the index schema declares for `vector_field`. -/
def index_vector_dimension : Option JVal :=
  (jobj_get index_body "mappings").bind fun m =>
    (jobj_get m "properties").bind fun props =>
      (jobj_get props "vector_field").bind fun vf =>
        jobj_get vf "dimension"

theorem index_vector_dimension_eq :
    index_vector_dimension = some (JVal.jint 1536) := by
  simp [index_vector_dimension, index_body, jobj_get, List.lookup]

/-- Counterexample to claim C3: with an embedding model returning dimension-2
vectors — while the index schema of `create_index` declares dimension 1536 —
the query pipeline does not fail before any network call: it issues the k-NN
search request carrying the mismatched 2-dimensional vector and completes
with the LLM's answer (the script has no `ConfigurationError` path at all). -/
theorem query_dim_mismatch_not_rejected_cex :
    index_vector_dimension = some (JVal.jint 1536) ∧
    ([1, 2] : List ℚ).length ≠ 1536 ∧
    (ask_question_main (fun _ => [1, 2]) (fun _ => ["some context"]) (fun _ => "the answer")
        " Can you describe the React approach?").2 =
      [NetCall.embedText " Can you describe the React approach?",
       NetCall.knnSearch [1, 2],
       NetCall.llmInvoke
         (prompt_template "some context" " Can you describe the React approach?")] ∧
    (ask_question_main (fun _ => [1, 2]) (fun _ => ["some context"]) (fun _ => "the answer")
        " Can you describe the React approach?").1 = "the answer" := by
  exact ⟨index_vector_dimension_eq, by decide, rfl, rfl⟩

/-- Claim C3 (amended): the query pipeline performs no client-side dimension
validation: even when the query embedding's dimension differs from the
schema's 1536, no `ConfigurationError` is raised — the pipeline always issues
the k-NN search network call with the query vector exactly as the embedding
model produced it, and runs to completion. -/
theorem query_pipeline_no_dimension_check (embed : String → List ℚ)
    (search : List ℚ → List String) (llm : String → String) (question : String)
    (hdim : (embed question).length ≠ 1536) :
    NetCall.knnSearch (embed question) ∈ (ask_question_main embed search llm question).2 ∧
    (ask_question_main embed search llm question).2 =
      [NetCall.embedText question, NetCall.knnSearch (embed question),
       NetCall.llmInvoke (prompt_template
         (String.intercalate "\n\n" (search (embed question))) question)] ∧
    (ask_question_main embed search llm question).1 =
      llm (prompt_template (String.intercalate "\n\n" (search (embed question))) question) := by
  refine ⟨?_, rfl, rfl⟩
  simp [ask_question_main]

/-- Witness for the amended C3: a dimension-2 embedding oracle. -/
theorem query_pipeline_no_dimension_check_witness :
    ((fun _ => ([1, 2] : List ℚ)) "q").length ≠ 1536 ∧
    NetCall.knnSearch ((fun _ => ([1, 2] : List ℚ)) "q") ∈
      (ask_question_main (fun _ => [1, 2]) (fun _ => []) (fun _ => "ans") "q").2 := by
  have h := query_pipeline_no_dimension_check (fun _ => [1, 2]) (fun _ => [])
    (fun _ => "ans") "q" (by decide)
  exact ⟨by decide, h.1⟩
